import Mathlib

set_option maxHeartbeats 1000000
set_option maxRecDepth 100000

/-!
Shallow embedding of the Express + PostgreSQL CRUD service implemented in
src/index.js of the repository. Route handlers become pure functions from a
database state and the request inputs to a triple of (HTTP-level result,
updated database state, list of SQL statements issued). PostgreSQL semantics
of the single-statement queries is modelled directly on the state; the
extended-protocol rule that the number of supplied parameters must equal the
highest placeholder index referenced by the statement is modelled by scanning
the literal SQL text, because two statements in the source violate it.
-/

namespace BackDocker

/-- A SQL parameter value as sent by the pg driver: a string, an integer, or
NULL (a JavaScript undefined binding is sent as NULL). -/
inductive Value where
  | str (s : String)
  | int (i : Int)
  | null
deriving Repr, DecidableEq

/-- The error taxonomy of the service; each variant corresponds to one of the
fixed error responses produced by the handlers in src/index.js. -/
inductive ApiError where
  | invalidId
  | incompleteData
  | invalidStatus
  | noUpdateData
  | notFound
  | duplicateEmail
  | internalError
deriving Repr, DecidableEq

/-- HTTP status code attached to each error response in src/index.js. -/
def ApiError.statusCode : ApiError → Nat
  | .invalidId => 400
  | .incompleteData => 400
  | .invalidStatus => 400
  | .noUpdateData => 400
  | .notFound => 404
  | .duplicateEmail => 409
  | .internalError => 500

/-- Outcome of one handler invocation: an HTTP success code with a payload, or
one of the fixed errors (whose HTTP code is `ApiError.statusCode`). -/
inductive HResult (α : Type) where
  | ok (code : Nat) (val : α)
  | fail (e : ApiError)
deriving Repr, DecidableEq

/-- HTTP status code of a handler result. -/
def HResult.httpCode {α : Type} : HResult α → Nat
  | .ok c _ => c
  | .fail e => e.statusCode

/-- A row of the `users` table. -/
structure User where
  id : Int
  name : String
  email : String
  password : Option String
deriving Repr, DecidableEq

/-- A row of the `todo` table; `date` is an abstract timestamp filled from the
CURRENT_TIMESTAMP default at insertion. -/
structure Todo where
  id : Int
  title : String
  status : String
  description : Option String
  date : Nat
deriving Repr, DecidableEq

/-- The relational store: the two tables, the next value of each SERIAL id
sequence, and the current time used for the `date` column default. -/
structure DB where
  users : List User
  todos : List Todo
  nextUserId : Int
  nextTodoId : Int
  now : Nat
deriving Repr, DecidableEq

/-- One parameterized statement as passed to pool.query. -/
structure SqlQuery where
  sql : String
  params : List Value
deriving Repr, DecidableEq

/-- Result of one handler invocation: HTTP result, resulting store, and the
SQL statements issued (in order), including statements the database rejected. -/
structure HandlerOut (α : Type) where
  result : HResult α
  db : DB
  queries : List SqlQuery
deriving Repr, DecidableEq

/-! ### JavaScript string semantics used by the handlers -/

/-- Truthiness of an optional JSON string field, as tested by `if (x)` or
`x && y` in the source: an absent (undefined) field and the empty string are
falsy, every other string is truthy. -/
def jsTruthy : Option String → Bool
  | none => false
  | some s => s ≠ ""

/-- Models String.prototype.toLowerCase restricted to ASCII letters, which is
what `Char.toLower` performs. -/
def jsToLower (s : String) : String :=
  String.mk (s.data.map Char.toLower)

/-- Models String.prototype.trim: remove whitespace from both ends. -/
def jsTrim (s : String) : String :=
  String.mk (((s.data.dropWhile Char.isWhitespace).reverse.dropWhile Char.isWhitespace).reverse)

/-- Value sent for an optional string parameter: undefined binds as NULL. -/
def optStrValue : Option String → Value
  | none => Value.null
  | some s => Value.str s

/-- Numeric value of a character as a digit in the given radix, if valid. -/
def digitValue (radix : Nat) (c : Char) : Option Nat :=
  let v : Option Nat :=
    if '0' ≤ c ∧ c ≤ '9' then some (c.toNat - '0'.toNat)
    else if 'a' ≤ c ∧ c ≤ 'z' then some (c.toNat - 'a'.toNat + 10)
    else if 'A' ≤ c ∧ c ≤ 'Z' then some (c.toNat - 'A'.toNat + 10)
    else none
  match v with
  | some d => if d < radix then some d else none
  | none => none

/-- Accumulate the longest prefix of digits in the given radix; the
accumulator is `none` until a first digit has been consumed, matching the
parseInt rule that at least one digit is required. -/
def parseDigits (radix : Nat) : List Char → Option Nat → Option Nat
  | [], acc => acc
  | c :: rest, acc =>
    match digitValue radix c with
    | some d => parseDigits radix rest (some (acc.getD 0 * radix + d))
    | none => acc

/-- Models the JavaScript global parseInt applied with no radix argument, as
used on `req.params.id` in src/index.js: skip leading whitespace, accept an
optional sign, honor a 0x or 0X prefix as hexadecimal, then read the longest
prefix of digits; yields none exactly when the result would be NaN. -/
def parseIntJS (s : String) : Option Int :=
  let cs := s.toList.dropWhile Char.isWhitespace
  let signed : Bool × List Char :=
    match cs with
    | '-' :: rest => (true, rest)
    | '+' :: rest => (false, rest)
    | _ => (false, cs)
  let based : Nat × List Char :=
    match signed.2 with
    | '0' :: 'x' :: rest => (16, rest)
    | '0' :: 'X' :: rest => (16, rest)
    | _ => (10, signed.2)
  match parseDigits based.1 based.2 none with
  | none => none
  | some n => some (if signed.1 then -(n : Int) else (n : Int))

/-! ### PostgreSQL parameter arity -/

/-- Scan a statement text for placeholders of the form a dollar sign followed
by digits, returning the highest index referenced; the first accumulator holds
the index currently being read, the second the best seen so far. -/
def phMax : List Char → Option Nat → Nat → Nat
  | [], cur, best => Nat.max best (cur.getD 0)
  | c :: rest, cur, best =>
    if c = '$' then
      phMax rest (some 0) (Nat.max best (cur.getD 0))
    else if c.isDigit then
      match cur with
      | some n => phMax rest (some (n * 10 + (c.toNat - '0'.toNat))) best
      | none => phMax rest none best
    else
      phMax rest none (Nat.max best (cur.getD 0))

/-- Highest placeholder index referenced by a statement text; the prepared
statement requires exactly that many parameters. -/
def maxParamIdx (s : String) : Nat :=
  phMax s.toList none 0

/-- PostgreSQL executes a parameterized statement only when the number of
supplied parameters equals the number the statement requires; on mismatch the
driver raises an error, which every handler catches as a 500 response. -/
def execOk (sql : String) (params : List Value) : Bool :=
  maxParamIdx sql == params.length

/-! ### Users handlers (src/index.js) -/

/-- Core of GET /api/users/:id after the id has been parsed: one SELECT by
primary key, 404 when no row matches, otherwise 200 with the row. -/
def getUserById (db : DB) (userId : Int) : HandlerOut User :=
  let q : SqlQuery := ⟨"SELECT * FROM users WHERE id = $1", [Value.int userId]⟩
  match db.users.find? (fun u => u.id == userId) with
  | none => ⟨HResult.fail ApiError.notFound, db, [q]⟩
  | some u => ⟨HResult.ok 200 u, db, [q]⟩

/-- GET /api/users/:id: parseInt the path segment, answer InvalidId on NaN
before any query, otherwise run the lookup. -/
def getUser (db : DB) (raw : String) : HandlerOut User :=
  match parseIntJS raw with
  | none => ⟨HResult.fail ApiError.invalidId, db, []⟩
  | some userId => getUserById db userId

/-- POST /api/users: require truthy name and email, reject a duplicate of the
lowercased email, then run the INSERT from the source, whose column list names
three columns while its VALUES list references four placeholders, so the
statement requires four parameters but only three are supplied and the
database rejects it (caught as a 500). -/
def createUser (db : DB) (name email password : Option String) : HandlerOut User :=
  if !jsTruthy name || !jsTruthy email then
    ⟨HResult.fail ApiError.incompleteData, db, []⟩
  else
    let n := name.getD ""
    let e := email.getD ""
    let q1 : SqlQuery := ⟨"SELECT id FROM users WHERE email = $1", [Value.str (jsToLower e)]⟩
    if db.users.any (fun u => u.email == jsToLower e) then
      ⟨HResult.fail ApiError.duplicateEmail, db, [q1]⟩
    else
      let sql := "INSERT INTO users (name, email, password) VALUES ($1, $2, $3, $4) RETURNING *"
      let params := [Value.str (jsTrim n), Value.str (jsToLower (jsTrim e)), optStrValue password]
      let q2 : SqlQuery := ⟨sql, params⟩
      if execOk sql params then
        let newUser : User := ⟨db.nextUserId, jsTrim n, jsToLower (jsTrim e), password⟩
        ⟨HResult.ok 201 newUser,
          { db with users := db.users ++ [newUser], nextUserId := db.nextUserId + 1 },
          [q1, q2]⟩
      else
        ⟨HResult.fail ApiError.internalError, db, [q1, q2]⟩

/-- Core of PUT /api/users/:id after the id has been parsed: require truthy
name and email, 404 when the id is absent, 409 when another user holds the
lowercased email, then run the UPDATE from the source, which references the
placeholder $5 while supplying only four parameters, so the database rejects
it (caught as a 500). The success branch records what the statement would do
if it were accepted; res.json reads rows[0] without a length check, hence the
Option payload. -/
def updateUserById (db : DB) (userId : Int) (name email password : Option String) :
    HandlerOut (Option User) :=
  if !jsTruthy name || !jsTruthy email then
    ⟨HResult.fail ApiError.incompleteData, db, []⟩
  else
    let n := name.getD ""
    let e := email.getD ""
    let q1 : SqlQuery := ⟨"SELECT * FROM users WHERE id = $1", [Value.int userId]⟩
    if !(db.users.any (fun u => u.id == userId)) then
      ⟨HResult.fail ApiError.notFound, db, [q1]⟩
    else
      let q2 : SqlQuery :=
        ⟨"SELECT id FROM users WHERE email = $1 AND id != $2",
         [Value.str (jsToLower e), Value.int userId]⟩
      if db.users.any (fun u => u.email == jsToLower e && u.id != userId) then
        ⟨HResult.fail ApiError.duplicateEmail, db, [q1, q2]⟩
      else
        let sql := "UPDATE users SET name = $1, email = $2, password = $3 WHERE id = $5 RETURNING *"
        let params := [Value.str (jsTrim n), Value.str (jsToLower (jsTrim e)), optStrValue password,
                       Value.int userId]
        let q3 : SqlQuery := ⟨sql, params⟩
        if execOk sql params then
          let upd := fun (u : User) =>
            if u.id == userId then
              { u with name := jsTrim n, email := jsToLower (jsTrim e), password := password }
            else u
          let updatedRows := (db.users.filter (fun u => u.id == userId)).map upd
          ⟨HResult.ok 200 updatedRows.head?,
            { db with users := db.users.map upd }, [q1, q2, q3]⟩
        else
          ⟨HResult.fail ApiError.internalError, db, [q1, q2, q3]⟩

/-- PUT /api/users/:id: parseInt the path segment, InvalidId on NaN before any
query, otherwise run the update sequence. -/
def updateUser (db : DB) (raw : String) (name email password : Option String) :
    HandlerOut (Option User) :=
  match parseIntJS raw with
  | none => ⟨HResult.fail ApiError.invalidId, db, []⟩
  | some userId => updateUserById db userId name email password

/-- Core of DELETE /api/users/:id after the id has been parsed: existence
check by SELECT, 404 when absent, then DELETE RETURNING and 200 with the
first deleted row. -/
def deleteUserById (db : DB) (userId : Int) : HandlerOut User :=
  let q1 : SqlQuery := ⟨"SELECT * FROM users WHERE id = $1", [Value.int userId]⟩
  if !(db.users.any (fun u => u.id == userId)) then
    ⟨HResult.fail ApiError.notFound, db, [q1]⟩
  else
    let q2 : SqlQuery := ⟨"DELETE FROM users WHERE id = $1 RETURNING *", [Value.int userId]⟩
    match db.users.filter (fun u => u.id == userId) with
    | [] => ⟨HResult.fail ApiError.notFound, db, [q1]⟩
    | u :: _ =>
      ⟨HResult.ok 200 u,
        { db with users := db.users.filter (fun v => !(v.id == userId)) }, [q1, q2]⟩

/-- DELETE /api/users/:id: parseInt the path segment, InvalidId on NaN before
any query, otherwise run the delete sequence. -/
def deleteUser (db : DB) (raw : String) : HandlerOut User :=
  match parseIntJS raw with
  | none => ⟨HResult.fail ApiError.invalidId, db, []⟩
  | some userId => deleteUserById db userId

/-! ### ToDo handlers (src/index.js) -/

/-- The enumerated status values accepted by the todo handlers. -/
def validStatuses : List String := ["To Do", "In Progress", "Done"]

/-- Core of GET /api/todo/:id after the id has been parsed. -/
def getTodoById (db : DB) (todoId : Int) : HandlerOut Todo :=
  let q : SqlQuery := ⟨"SELECT * FROM todo WHERE id = $1", [Value.int todoId]⟩
  match db.todos.find? (fun t => t.id == todoId) with
  | none => ⟨HResult.fail ApiError.notFound, db, [q]⟩
  | some t => ⟨HResult.ok 200 t, db, [q]⟩

/-- GET /api/todo/:id: parseInt the path segment, InvalidId on NaN before any
query, otherwise run the lookup. -/
def getTodo (db : DB) (raw : String) : HandlerOut Todo :=
  match parseIntJS raw with
  | none => ⟨HResult.fail ApiError.invalidId, db, []⟩
  | some todoId => getTodoById db todoId

/-- POST /api/todo: require a truthy title; reject a truthy status outside the
enumeration (the source guard is status && !validStatuses.includes(status), so
a falsy status such as the empty string skips the check); resolve the final
status as status || To Do; insert trimmed title, resolved status and
trimmed-or-null description, with id and date from the column defaults. -/
def createTodo (db : DB) (title status description : Option String) : HandlerOut Todo :=
  if !jsTruthy title then
    ⟨HResult.fail ApiError.incompleteData, db, []⟩
  else if jsTruthy status && !(validStatuses.contains (status.getD "")) then
    ⟨HResult.fail ApiError.invalidStatus, db, []⟩
  else
    let finalStatus := if jsTruthy status then status.getD "" else "To Do"
    let descVal : Option String :=
      if jsTruthy description then some (jsTrim (description.getD "")) else none
    let sql := "INSERT INTO todo (title, status, description) VALUES ($1, $2, $3) RETURNING *"
    let params := [Value.str (jsTrim (title.getD "")), Value.str finalStatus, optStrValue descVal]
    let q : SqlQuery := ⟨sql, params⟩
    if execOk sql params then
      let newTodo : Todo := ⟨db.nextTodoId, jsTrim (title.getD ""), finalStatus, descVal, db.now⟩
      ⟨HResult.ok 201 newTodo,
        { db with todos := db.todos ++ [newTodo], nextTodoId := db.nextTodoId + 1 }, [q]⟩
    else
      ⟨HResult.fail ApiError.internalError, db, [q]⟩

/-- Field-wise effect of the dynamic UPDATE built by PUT /api/todo/:id on a
matching row: each supplied field is set to the value pushed into the
parameter list (title trimmed, status as given, description trimmed or NULL
when falsy), every other column keeps its value; the date column is never in
the SET list. -/
def applyTodoPatch (title status description : Option String) (t : Todo) : Todo :=
  { t with
    title := match title with
      | some s => jsTrim s
      | none => t.title
    status := match status with
      | some s => s
      | none => t.status
    description := match description with
      | some d => if d ≠ "" then some (jsTrim d) else none
      | none => t.description }

/-- Core of PUT /api/todo/:id after the id has been parsed: NoUpdateData when
all three body fields are undefined, InvalidStatus when a defined status is
outside the enumeration, otherwise build the SET list and parameter list
field by field exactly as the source does (parameter one is the id, further
placeholders numbered from two), execute the dynamic UPDATE RETURNING, 404
when no row matched, else 200 with the first updated row. -/
def updateTodoById (db : DB) (todoId : Int) (title status description : Option String) :
    HandlerOut Todo :=
  if title.isNone && status.isNone && description.isNone then
    ⟨HResult.fail ApiError.noUpdateData, db, []⟩
  else if status.isSome && !(validStatuses.contains (status.getD "")) then
    ⟨HResult.fail ApiError.invalidStatus, db, []⟩
  else
    let parts0 : List String := []
    let params0 : List Value := [Value.int todoId]
    let idx0 : Nat := 2
    let step1 : List String × List Value × Nat :=
      match title with
      | some t => (parts0 ++ ["title = $" ++ toString idx0], params0 ++ [Value.str (jsTrim t)], idx0 + 1)
      | none => (parts0, params0, idx0)
    let step2 : List String × List Value × Nat :=
      match status with
      | some s => (step1.1 ++ ["status = $" ++ toString step1.2.2],
                   step1.2.1 ++ [Value.str s], step1.2.2 + 1)
      | none => step1
    let step3 : List String × List Value × Nat :=
      match description with
      | some d => (step2.1 ++ ["description = $" ++ toString step2.2.2],
                   step2.2.1 ++ [if d ≠ "" then Value.str (jsTrim d) else Value.null],
                   step2.2.2 + 1)
      | none => step2
    if step3.1.length == 0 then
      ⟨HResult.fail ApiError.noUpdateData, db, []⟩
    else
      let sql := "UPDATE todo SET " ++ String.intercalate ", " step3.1 ++ " WHERE id = $1 RETURNING *"
      let q : SqlQuery := ⟨sql, step3.2.1⟩
      if execOk sql step3.2.1 then
        let patch := applyTodoPatch title status description
        let updatedRows := (db.todos.filter (fun t => t.id == todoId)).map patch
        let db' := { db with todos := db.todos.map (fun t => if t.id == todoId then patch t else t) }
        match updatedRows with
        | [] => ⟨HResult.fail ApiError.notFound, db', [q]⟩
        | r :: _ => ⟨HResult.ok 200 r, db', [q]⟩
      else
        ⟨HResult.fail ApiError.internalError, db, [q]⟩

/-- PUT /api/todo/:id: parseInt the path segment, InvalidId on NaN before any
query, otherwise run the update sequence. -/
def updateTodo (db : DB) (raw : String) (title status description : Option String) :
    HandlerOut Todo :=
  match parseIntJS raw with
  | none => ⟨HResult.fail ApiError.invalidId, db, []⟩
  | some todoId => updateTodoById db todoId title status description

/-- Core of DELETE /api/todo/:id after the id has been parsed: DELETE
RETURNING with no existence precheck, 404 when no row was deleted, else 200
with the first deleted row. -/
def deleteTodoById (db : DB) (todoId : Int) : HandlerOut Todo :=
  let q : SqlQuery := ⟨"DELETE FROM todo WHERE id = $1 RETURNING *", [Value.int todoId]⟩
  match db.todos.filter (fun t => t.id == todoId) with
  | [] => ⟨HResult.fail ApiError.notFound, db, [q]⟩
  | t :: _ =>
    ⟨HResult.ok 200 t,
      { db with todos := db.todos.filter (fun v => !(v.id == todoId)) }, [q]⟩

/-- DELETE /api/todo/:id: parseInt the path segment, InvalidId on NaN before
any query, otherwise run the delete. -/
def deleteTodo (db : DB) (raw : String) : HandlerOut Todo :=
  match parseIntJS raw with
  | none => ⟨HResult.fail ApiError.invalidId, db, []⟩
  | some todoId => deleteTodoById db todoId

/-! ### Spec-side definitions and concrete states used by the theorems -/

/-- Spec-side reading of a base-10 integer path segment, written from the
claim text (a segment that parses as a base-10 integer): an optional sign
followed by one or more decimal digits and nothing else. It is compared
against the parseInt-based behavior of the source. -/
def isBase10Integer (s : String) : Bool :=
  let digits : List Char :=
    match s.toList with
    | '-' :: rest => rest
    | '+' :: rest => rest
    | l => l
  digits ≠ [] && digits.all Char.isDigit

/-- An empty store with fresh id sequences. -/
def dbEmpty : DB := ⟨[], [], 1, 1, 0⟩

/-- A store holding exactly one user. -/
def dbOneUser : DB := ⟨[⟨1, "Ana", "ana@example.com", none⟩], [], 2, 1, 0⟩

/-- A store holding exactly one todo item. -/
def dbOneTodo : DB := ⟨[], [⟨1, "Tarea", "To Do", none, 5⟩], 1, 2, 9⟩

/-! ### Helper lemmas on the fixed SQL statements -/

theorem maxParamIdx_insertTodo :
    maxParamIdx "INSERT INTO todo (title, status, description) VALUES ($1, $2, $3) RETURNING *" = 3 := by
  decide

theorem maxParamIdx_insertUsers :
    maxParamIdx "INSERT INTO users (name, email, password) VALUES ($1, $2, $3, $4) RETURNING *" = 4 := by
  decide

theorem maxParamIdx_updateUsers :
    maxParamIdx "UPDATE users SET name = $1, email = $2, password = $3 WHERE id = $5 RETURNING *" = 5 := by
  decide

/-! ### Claim theorems -/

/-- C1: the claim says a valid updateUser call overwrites the row and answers
200; on the code the UPDATE statement references placeholder $5 while only
four parameters are supplied, so the database rejects it and the endpoint
answers 500 with the store unchanged. Evaluation at a failing input: an
existing user with id 1, a fresh email, all required fields present. -/
theorem C1_updateUser_valid_input_yields_500 :
    (updateUser dbOneUser "1" (some "Ana Maria") (some "ana2@example.com") (some "secret")).result
      = HResult.fail ApiError.internalError
    ∧ (updateUser dbOneUser "1" (some "Ana Maria") (some "ana2@example.com") (some "secret")).result.httpCode = 500
    ∧ (updateUser dbOneUser "1" (some "Ana Maria") (some "ana2@example.com") (some "secret")).db = dbOneUser := by
  decide

/-- C2: the claim says a valid createUser call inserts the row and answers
201, and a second call with the same email answers 409; on the code the
INSERT names three columns but references four placeholders with three
parameters supplied, so the database rejects it: both calls answer 500 and
nothing is ever inserted. Evaluation at a failing input: an empty store and
two identical valid requests. -/
theorem C2_createUser_insert_always_rejected :
    (createUser dbEmpty (some "Ana") (some "ana@example.com") none).result
      = HResult.fail ApiError.internalError
    ∧ (createUser dbEmpty (some "Ana") (some "ana@example.com") none).result.httpCode = 500
    ∧ (createUser dbEmpty (some "Ana") (some "ana@example.com") none).db = dbEmpty
    ∧ (createUser (createUser dbEmpty (some "Ana") (some "ana@example.com") none).db
        (some "Ana") (some "ana@example.com") none).result
      = HResult.fail ApiError.internalError := by
  decide

/-- C3 counterexample: the segment 12abc is not a base-10 integer, yet the
GET endpoints do not answer InvalidId on it and do issue a database query,
because parseInt truncates it to 12. -/
theorem C3_counterexample_12abc_not_rejected :
    isBase10Integer "12abc" = false
    ∧ (getTodo dbEmpty "12abc").result ≠ HResult.fail ApiError.invalidId
    ∧ (getTodo dbEmpty "12abc").queries ≠ []
    ∧ (getUser dbEmpty "12abc").result ≠ HResult.fail ApiError.invalidId
    ∧ (getUser dbEmpty "12abc").queries ≠ [] := by
  decide

/-- C4 counterexample: createTodo with the empty string as status, a present
value outside the enumeration, does not answer InvalidStatus: the source
guards the check with the truthiness of status, so the empty string skips it,
is replaced by the default, and a row is written. -/
theorem C4_counterexample_empty_status_written :
    validStatuses.contains "" = false
    ∧ (createTodo dbEmpty (some "Tarea") (some "") none).result
        = HResult.ok 201 ⟨1, "Tarea", "To Do", none, 0⟩
    ∧ (createTodo dbEmpty (some "Tarea") (some "") none).db.todos ≠ dbEmpty.todos := by
  decide

/-- C3 (amended): for every path segment on which JavaScript parseInt yields
NaN, each of the six id endpoints answers InvalidId, issues no database query
and leaves the store unchanged. -/
theorem C3_amended_nan_segment_rejected_before_query
    (db : DB) (raw : String) (n e p t s d : Option String)
    (h : parseIntJS raw = none) :
    ((getUser db raw).result = HResult.fail ApiError.invalidId
      ∧ (getUser db raw).queries = [] ∧ (getUser db raw).db = db)
    ∧ ((updateUser db raw n e p).result = HResult.fail ApiError.invalidId
      ∧ (updateUser db raw n e p).queries = [] ∧ (updateUser db raw n e p).db = db)
    ∧ ((deleteUser db raw).result = HResult.fail ApiError.invalidId
      ∧ (deleteUser db raw).queries = [] ∧ (deleteUser db raw).db = db)
    ∧ ((getTodo db raw).result = HResult.fail ApiError.invalidId
      ∧ (getTodo db raw).queries = [] ∧ (getTodo db raw).db = db)
    ∧ ((updateTodo db raw t s d).result = HResult.fail ApiError.invalidId
      ∧ (updateTodo db raw t s d).queries = [] ∧ (updateTodo db raw t s d).db = db)
    ∧ ((deleteTodo db raw).result = HResult.fail ApiError.invalidId
      ∧ (deleteTodo db raw).queries = [] ∧ (deleteTodo db raw).db = db) := by
  simp [getUser, updateUser, deleteUser, getTodo, updateTodo, deleteTodo, h]

/-- Witness for the amended C3 at the concrete segment abc. -/
theorem C3_amended_witness :
    parseIntJS "abc" = none
    ∧ (getUser dbEmpty "abc").result = HResult.fail ApiError.invalidId
    ∧ (updateTodo dbEmpty "abc" none none none).queries = [] :=
  ⟨by decide,
   (C3_amended_nan_segment_rejected_before_query dbEmpty "abc" none none none
      none none none (by decide)).1.1,
   (C3_amended_nan_segment_rejected_before_query dbEmpty "abc" none none none
      none none none (by decide)).2.2.2.2.1.2.1⟩

/-- C4 (amended): a status outside the enumeration is answered with
InvalidStatus and no write by createTodo whenever the status is truthy (the
empty string instead skips the check and is defaulted) and the title check
has passed, and by updateTodoById for every defined status value. -/
theorem C4_amended_invalid_status_rejected_no_write
    (db : DB) (i : Int) (ttl s : String) (t2 d2 desc : Option String)
    (hs : s ∉ validStatuses) :
    (s ≠ "" → ttl ≠ "" →
      (createTodo db (some ttl) (some s) desc).result = HResult.fail ApiError.invalidStatus
      ∧ (createTodo db (some ttl) (some s) desc).db = db
      ∧ (createTodo db (some ttl) (some s) desc).queries = [])
    ∧ ((updateTodoById db i t2 (some s) d2).result = HResult.fail ApiError.invalidStatus
      ∧ (updateTodoById db i t2 (some s) d2).db = db
      ∧ (updateTodoById db i t2 (some s) d2).queries = []) := by
  constructor
  · intro hsne htne
    simp [createTodo, jsTruthy, hs, hsne, htne]
  · simp [updateTodoById, hs]

/-- Witness for the amended C4 at the concrete status Bad. -/
theorem C4_amended_witness :
    validStatuses.contains "Bad" = false
    ∧ (createTodo dbEmpty (some "Tarea") (some "Bad") none).result
        = HResult.fail ApiError.invalidStatus
    ∧ (updateTodoById dbOneTodo 1 none (some "Bad") none).db = dbOneTodo :=
  ⟨by decide,
   ((C4_amended_invalid_status_rejected_no_write dbEmpty 1 "Tarea" "Bad" none none none
      (by decide)).1 (by decide) (by decide)).1,
   (C4_amended_invalid_status_rejected_no_write dbOneTodo 1 "Tarea" "Bad" none none none
      (by decide)).2.2.1⟩

/-- C5: createTodo with a non-empty title and no status answers 201 with a
row whose status is exactly To Do, whose title is the trimmed title, whose
description is the trimmed description when a non-empty one was supplied and
NULL otherwise, and the row is appended to the todo table. -/
theorem C5_createTodo_default_status
    (db : DB) (ttl : String) (desc : Option String) (ht : ttl ≠ "") :
    ∃ row : Todo,
      (createTodo db (some ttl) none desc).result = HResult.ok 201 row
      ∧ row.status = "To Do"
      ∧ row.title = jsTrim ttl
      ∧ row.id = db.nextTodoId
      ∧ (∀ dstr, desc = some dstr → dstr ≠ "" → row.description = some (jsTrim dstr))
      ∧ ((desc = none ∨ desc = some "") → row.description = none)
      ∧ (createTodo db (some ttl) none desc).db.todos = db.todos ++ [row] := by
  refine ⟨⟨db.nextTodoId, jsTrim ttl, "To Do",
    if jsTruthy desc then some (jsTrim (desc.getD "")) else none, db.now⟩, ?_⟩
  have hex : ∀ v : Value,
      execOk "INSERT INTO todo (title, status, description) VALUES ($1, $2, $3) RETURNING *"
        [Value.str (jsTrim ttl), Value.str "To Do", v] = true := by
    intro v
    simp [execOk, maxParamIdx_insertTodo]
  refine ⟨?_, rfl, rfl, rfl, ?_, ?_, ?_⟩
  · simp [createTodo, jsTruthy, ht, hex]
  · intro dstr hd hne
    simp [hd, jsTruthy, hne]
  · rintro (hd | hd) <;> simp [hd, jsTruthy]
  · simp [createTodo, jsTruthy, ht, hex]

/-- Witness for C5 at the concrete title Tarea 1. -/
theorem C5_witness :
    ∃ row : Todo,
      (createTodo dbEmpty (some "Tarea 1") none none).result = HResult.ok 201 row
      ∧ row.status = "To Do"
      ∧ row.title = jsTrim "Tarea 1"
      ∧ row.id = dbEmpty.nextTodoId
      ∧ (∀ dstr, (none : Option String) = some dstr → dstr ≠ "" → row.description = some (jsTrim dstr))
      ∧ (((none : Option String) = none ∨ (none : Option String) = some "") → row.description = none)
      ∧ (createTodo dbEmpty (some "Tarea 1") none none).db.todos = dbEmpty.todos ++ [row] :=
  C5_createTodo_default_status dbEmpty "Tarea 1" none (by decide)

/-! ### Arity of the dynamically built todo UPDATE statements

Each possible SET-list shape references placeholders up to the number of
parameters supplied, so the statement is accepted whatever the values are. -/

theorem execOk_dyn_t (a b : Value) :
    execOk ("UPDATE todo SET " ++ ", ".intercalate ["title = $" ++ toString 2]
      ++ " WHERE id = $1 RETURNING *") [a, b] = true := rfl

theorem execOk_dyn_s (a b : Value) :
    execOk ("UPDATE todo SET " ++ ", ".intercalate ["status = $" ++ toString 2]
      ++ " WHERE id = $1 RETURNING *") [a, b] = true := rfl

theorem execOk_dyn_d (a b : Value) :
    execOk ("UPDATE todo SET " ++ ", ".intercalate ["description = $" ++ toString 2]
      ++ " WHERE id = $1 RETURNING *") [a, b] = true := rfl

theorem execOk_dyn_ts (a b c : Value) :
    execOk ("UPDATE todo SET "
      ++ ", ".intercalate ["title = $" ++ toString 2, "status = $" ++ toString (2 + 1)]
      ++ " WHERE id = $1 RETURNING *") [a, b, c] = true := rfl

theorem execOk_dyn_td (a b c : Value) :
    execOk ("UPDATE todo SET "
      ++ ", ".intercalate ["title = $" ++ toString 2, "description = $" ++ toString (2 + 1)]
      ++ " WHERE id = $1 RETURNING *") [a, b, c] = true := rfl

theorem execOk_dyn_sd (a b c : Value) :
    execOk ("UPDATE todo SET "
      ++ ", ".intercalate ["status = $" ++ toString 2, "description = $" ++ toString (2 + 1)]
      ++ " WHERE id = $1 RETURNING *") [a, b, c] = true := rfl

theorem execOk_dyn_tsd (a b c e : Value) :
    execOk ("UPDATE todo SET "
      ++ ", ".intercalate ["title = $" ++ toString 2, "status = $" ++ toString (2 + 1),
           "description = $" ++ toString (2 + 1 + 1)]
      ++ " WHERE id = $1 RETURNING *") [a, b, c, e] = true := rfl

/-- The INSERT of createTodo is accepted whatever the parameter values are. -/
theorem execOk_insertTodo (a b c : Value) :
    execOk "INSERT INTO todo (title, status, description) VALUES ($1, $2, $3) RETURNING *"
      [a, b, c] = true := rfl

/-! ### Structural facts about the todo handlers -/

/-- Lengths of the possible SET lists are never zero. -/
theorem lenBeq1 : ((0 + 1 : Nat) == 0) = false := rfl

/-- Lengths of the possible SET lists are never zero, two entries. -/
theorem lenBeq2 : ((0 + 1 + 1 : Nat) == 0) = false := rfl

/-- Lengths of the possible SET lists are never zero, three entries. -/
theorem lenBeq3 : ((0 + 1 + 1 + 1 : Nat) == 0) = false := rfl

/-- Either updateTodoById rejects the request and leaves the store unchanged,
or every defined status was valid, the todo table is rewritten by patching
exactly the rows whose id matches, and a 200 result carries the patched form
of a row of the original table with that id. -/
theorem updateTodoById_shape (db : DB) (i : Int) (t s d : Option String) :
    ((updateTodoById db i t s d).db = db
      ∧ ∀ code row, (updateTodoById db i t s d).result ≠ HResult.ok code row)
    ∨ ((∀ sv, s = some sv → sv ∈ validStatuses)
       ∧ (updateTodoById db i t s d).db.todos
           = db.todos.map (fun x => if x.id == i then applyTodoPatch t s d x else x)
       ∧ (∀ code row, (updateTodoById db i t s d).result = HResult.ok code row →
            code = 200 ∧ ∃ x0 ∈ db.todos, x0.id = i ∧ row = applyTodoPatch t s d x0)) := by
  have hstep : ∀ (hval : ∀ sv, s = some sv → sv ∈ validStatuses),
      ((updateTodoById db i t s d).db.todos
          = db.todos.map (fun x => if x.id == i then applyTodoPatch t s d x else x)
        ∧ (∀ code row, (updateTodoById db i t s d).result = HResult.ok code row →
            code = 200 ∧ ∃ x0 ∈ db.todos, x0.id = i ∧ row = applyTodoPatch t s d x0))
      → ((updateTodoById db i t s d).db = db
          ∧ ∀ code row, (updateTodoById db i t s d).result ≠ HResult.ok code row)
        ∨ ((∀ sv, s = some sv → sv ∈ validStatuses)
           ∧ (updateTodoById db i t s d).db.todos
               = db.todos.map (fun x => if x.id == i then applyTodoPatch t s d x else x)
           ∧ (∀ code row, (updateTodoById db i t s d).result = HResult.ok code row →
                code = 200 ∧ ∃ x0 ∈ db.todos, x0.id = i ∧ row = applyTodoPatch t s d x0)) :=
    fun hval h => Or.inr ⟨hval, h⟩
  rcases t with _ | tv <;> rcases s with _ | sv <;> rcases d with _ | dv
  -- case t = none, s = none, d = none
  · left
    simp [updateTodoById]
  -- case t = none, s = none, d = some dv
  · refine hstep (fun sv2 h2 => by cases h2) ?_
    unfold updateTodoById
    simp only [Option.isNone_some, Option.isNone_none, Bool.false_and, Bool.and_false,
      Bool.true_and, Bool.and_true, Option.isSome_some, Option.isSome_none,
      Bool.false_eq_true, if_false, if_true, List.nil_append, List.cons_append,
      List.length_cons, List.length_nil, Option.getD_some, Bool.not_true, Bool.not_false,
      lenBeq1, execOk_dyn_d]
    rcases hf : db.todos.filter (fun x => x.id == i) with _ | ⟨x, xs⟩ <;>
      rw [hf] <;> simp only [List.map_cons, List.map_nil]
    · exact ⟨by trivial, fun code row h => absurd h (by simp)⟩
    · refine ⟨by trivial, fun code row h => ?_⟩
      have hx : x ∈ db.todos.filter (fun v => v.id == i) := by
        rw [hf]; exact List.mem_cons_self x xs
      have hx2 := List.mem_filter.mp hx
      injection h with hcode hrow
      exact ⟨hcode.symm, x, hx2.1, by simpa using hx2.2, hrow.symm⟩
  -- case t = none, s = some sv, d = none
  · by_cases hc : sv ∈ validStatuses
    · have hc' : validStatuses.contains sv = true := by simpa using hc
      refine hstep (fun sv2 h2 => by injection h2 with h3; exact h3 ▸ hc) ?_
      unfold updateTodoById
      simp only [Option.isNone_some, Option.isNone_none, Bool.false_and, Bool.and_false,
        Bool.true_and, Bool.and_true, Option.isSome_some, Option.isSome_none,
        Bool.false_eq_true, if_false, if_true, List.nil_append, List.cons_append,
        List.length_cons, List.length_nil, Option.getD_some, Bool.not_true, Bool.not_false,
        lenBeq1, hc', execOk_dyn_s]
      rcases hf : db.todos.filter (fun x => x.id == i) with _ | ⟨x, xs⟩ <;>
        rw [hf] <;> simp only [List.map_cons, List.map_nil]
      · exact ⟨by trivial, fun code row h => absurd h (by simp)⟩
      · refine ⟨by trivial, fun code row h => ?_⟩
        have hx : x ∈ db.todos.filter (fun v => v.id == i) := by
          rw [hf]; exact List.mem_cons_self x xs
        have hx2 := List.mem_filter.mp hx
        injection h with hcode hrow
        exact ⟨hcode.symm, x, hx2.1, by simpa using hx2.2, hrow.symm⟩
    · left
      unfold updateTodoById
      simp [hc]
  -- case t = none, s = some sv, d = some dv
  · by_cases hc : sv ∈ validStatuses
    · have hc' : validStatuses.contains sv = true := by simpa using hc
      refine hstep (fun sv2 h2 => by injection h2 with h3; exact h3 ▸ hc) ?_
      unfold updateTodoById
      simp only [Option.isNone_some, Option.isNone_none, Bool.false_and, Bool.and_false,
        Bool.true_and, Bool.and_true, Option.isSome_some, Option.isSome_none,
        Bool.false_eq_true, if_false, if_true, List.nil_append, List.cons_append,
        List.length_cons, List.length_nil, Option.getD_some, Bool.not_true, Bool.not_false,
        lenBeq2, hc', execOk_dyn_sd]
      rcases hf : db.todos.filter (fun x => x.id == i) with _ | ⟨x, xs⟩ <;>
        rw [hf] <;> simp only [List.map_cons, List.map_nil]
      · exact ⟨by trivial, fun code row h => absurd h (by simp)⟩
      · refine ⟨by trivial, fun code row h => ?_⟩
        have hx : x ∈ db.todos.filter (fun v => v.id == i) := by
          rw [hf]; exact List.mem_cons_self x xs
        have hx2 := List.mem_filter.mp hx
        injection h with hcode hrow
        exact ⟨hcode.symm, x, hx2.1, by simpa using hx2.2, hrow.symm⟩
    · left
      unfold updateTodoById
      simp [hc]
  -- case t = some tv, s = none, d = none
  · refine hstep (fun sv2 h2 => by cases h2) ?_
    unfold updateTodoById
    simp only [Option.isNone_some, Option.isNone_none, Bool.false_and, Bool.and_false,
      Bool.true_and, Bool.and_true, Option.isSome_some, Option.isSome_none,
      Bool.false_eq_true, if_false, if_true, List.nil_append, List.cons_append,
      List.length_cons, List.length_nil, Option.getD_some, Bool.not_true, Bool.not_false,
      lenBeq1, execOk_dyn_t]
    rcases hf : db.todos.filter (fun x => x.id == i) with _ | ⟨x, xs⟩ <;>
      rw [hf] <;> simp only [List.map_cons, List.map_nil]
    · exact ⟨by trivial, fun code row h => absurd h (by simp)⟩
    · refine ⟨by trivial, fun code row h => ?_⟩
      have hx : x ∈ db.todos.filter (fun v => v.id == i) := by
        rw [hf]; exact List.mem_cons_self x xs
      have hx2 := List.mem_filter.mp hx
      injection h with hcode hrow
      exact ⟨hcode.symm, x, hx2.1, by simpa using hx2.2, hrow.symm⟩
  -- case t = some tv, s = none, d = some dv
  · refine hstep (fun sv2 h2 => by cases h2) ?_
    unfold updateTodoById
    simp only [Option.isNone_some, Option.isNone_none, Bool.false_and, Bool.and_false,
      Bool.true_and, Bool.and_true, Option.isSome_some, Option.isSome_none,
      Bool.false_eq_true, if_false, if_true, List.nil_append, List.cons_append,
      List.length_cons, List.length_nil, Option.getD_some, Bool.not_true, Bool.not_false,
      lenBeq2, execOk_dyn_td]
    rcases hf : db.todos.filter (fun x => x.id == i) with _ | ⟨x, xs⟩ <;>
      rw [hf] <;> simp only [List.map_cons, List.map_nil]
    · exact ⟨by trivial, fun code row h => absurd h (by simp)⟩
    · refine ⟨by trivial, fun code row h => ?_⟩
      have hx : x ∈ db.todos.filter (fun v => v.id == i) := by
        rw [hf]; exact List.mem_cons_self x xs
      have hx2 := List.mem_filter.mp hx
      injection h with hcode hrow
      exact ⟨hcode.symm, x, hx2.1, by simpa using hx2.2, hrow.symm⟩
  -- case t = some tv, s = some sv, d = none
  · by_cases hc : sv ∈ validStatuses
    · have hc' : validStatuses.contains sv = true := by simpa using hc
      refine hstep (fun sv2 h2 => by injection h2 with h3; exact h3 ▸ hc) ?_
      unfold updateTodoById
      simp only [Option.isNone_some, Option.isNone_none, Bool.false_and, Bool.and_false,
        Bool.true_and, Bool.and_true, Option.isSome_some, Option.isSome_none,
        Bool.false_eq_true, if_false, if_true, List.nil_append, List.cons_append,
        List.length_cons, List.length_nil, Option.getD_some, Bool.not_true, Bool.not_false,
        lenBeq2, hc', execOk_dyn_ts]
      rcases hf : db.todos.filter (fun x => x.id == i) with _ | ⟨x, xs⟩ <;>
        rw [hf] <;> simp only [List.map_cons, List.map_nil]
      · exact ⟨by trivial, fun code row h => absurd h (by simp)⟩
      · refine ⟨by trivial, fun code row h => ?_⟩
        have hx : x ∈ db.todos.filter (fun v => v.id == i) := by
          rw [hf]; exact List.mem_cons_self x xs
        have hx2 := List.mem_filter.mp hx
        injection h with hcode hrow
        exact ⟨hcode.symm, x, hx2.1, by simpa using hx2.2, hrow.symm⟩
    · left
      unfold updateTodoById
      simp [hc]
  -- case t = some tv, s = some sv, d = some dv
  · by_cases hc : sv ∈ validStatuses
    · have hc' : validStatuses.contains sv = true := by simpa using hc
      refine hstep (fun sv2 h2 => by injection h2 with h3; exact h3 ▸ hc) ?_
      unfold updateTodoById
      simp only [Option.isNone_some, Option.isNone_none, Bool.false_and, Bool.and_false,
        Bool.true_and, Bool.and_true, Option.isSome_some, Option.isSome_none,
        Bool.false_eq_true, if_false, if_true, List.nil_append, List.cons_append,
        List.length_cons, List.length_nil, Option.getD_some, Bool.not_true, Bool.not_false,
        lenBeq3, hc', execOk_dyn_tsd]
      rcases hf : db.todos.filter (fun x => x.id == i) with _ | ⟨x, xs⟩ <;>
        rw [hf] <;> simp only [List.map_cons, List.map_nil]
      · exact ⟨by trivial, fun code row h => absurd h (by simp)⟩
      · refine ⟨by trivial, fun code row h => ?_⟩
        have hx : x ∈ db.todos.filter (fun v => v.id == i) := by
          rw [hf]; exact List.mem_cons_self x xs
        have hx2 := List.mem_filter.mp hx
        injection h with hcode hrow
        exact ⟨hcode.symm, x, hx2.1, by simpa using hx2.2, hrow.symm⟩
    · left
      unfold updateTodoById
      simp [hc]

/-- The patch never changes the id column. -/
theorem applyTodoPatch_id (t s d : Option String) (x : Todo) :
    (applyTodoPatch t s d x).id = x.id := rfl

/-- The patch never changes the date column. -/
theorem applyTodoPatch_date (t s d : Option String) (x : Todo) :
    (applyTodoPatch t s d x).date = x.date := rfl

/-- An undefined title leaves the title column unchanged. -/
theorem applyTodoPatch_title_none (s d : Option String) (x : Todo) :
    (applyTodoPatch none s d x).title = x.title := rfl

/-- An undefined status leaves the status column unchanged. -/
theorem applyTodoPatch_status_none (t d : Option String) (x : Todo) :
    (applyTodoPatch t none d x).status = x.status := rfl

/-- A defined status sets the status column to that value. -/
theorem applyTodoPatch_status_some (t d : Option String) (sv : String) (x : Todo) :
    (applyTodoPatch t (some sv) d x).status = sv := rfl

/-- An undefined description leaves the description column unchanged. -/
theorem applyTodoPatch_descr_none (t s : Option String) (x : Todo) :
    (applyTodoPatch t s none x).description = x.description := rfl

/-- C6: an updateTodoById call with all three fields undefined answers
NoUpdateData and writes nothing; a successful call answers a row with the
requested id, keeps the table length, and rewrites rows pointwise so that the
date column and every field not supplied in the payload keep their prior
values, rows with a different id being untouched entirely. -/
theorem C6_updateTodo_frame (db : DB) (i : Int) (t s d : Option String) :
    ((t = none ∧ s = none ∧ d = none) →
      (updateTodoById db i t s d).result = HResult.fail ApiError.noUpdateData
      ∧ (updateTodoById db i t s d).db = db
      ∧ (updateTodoById db i t s d).queries = [])
    ∧ (∀ code row, (updateTodoById db i t s d).result = HResult.ok code row →
        row.id = i
        ∧ (updateTodoById db i t s d).db.todos.length = db.todos.length
        ∧ ∀ j : Nat, ∀ hj : j < db.todos.length,
            ∀ hj2 : j < (updateTodoById db i t s d).db.todos.length,
            ((updateTodoById db i t s d).db.todos.get ⟨j, hj2⟩).id
                = (db.todos.get ⟨j, hj⟩).id
            ∧ ((updateTodoById db i t s d).db.todos.get ⟨j, hj2⟩).date
                = (db.todos.get ⟨j, hj⟩).date
            ∧ ((db.todos.get ⟨j, hj⟩).id ≠ i →
                (updateTodoById db i t s d).db.todos.get ⟨j, hj2⟩ = db.todos.get ⟨j, hj⟩)
            ∧ (t = none → ((updateTodoById db i t s d).db.todos.get ⟨j, hj2⟩).title
                = (db.todos.get ⟨j, hj⟩).title)
            ∧ (s = none → ((updateTodoById db i t s d).db.todos.get ⟨j, hj2⟩).status
                = (db.todos.get ⟨j, hj⟩).status)
            ∧ (d = none → ((updateTodoById db i t s d).db.todos.get ⟨j, hj2⟩).description
                = (db.todos.get ⟨j, hj⟩).description)) := by
  constructor
  · rintro ⟨rfl, rfl, rfl⟩
    refine ⟨?_, ?_, ?_⟩ <;> simp [updateTodoById]
  · intro code row h
    rcases updateTodoById_shape db i t s d with ⟨hdb, hnot⟩ | ⟨hval, htodos, hok⟩
    · exact absurd h (hnot code row)
    · obtain ⟨hcode, x0, hx0m, hx0i, hrow⟩ := hok code row h

      refine ⟨by rw [hrow, applyTodoPatch_id, hx0i], by rw [htodos, List.length_map], ?_⟩
      intro j hj hj2
      have hy : (updateTodoById db i t s d).db.todos.get ⟨j, hj2⟩
          = (fun x => if x.id == i then applyTodoPatch t s d x else x) (db.todos.get ⟨j, hj⟩) := by
        rw [List.get_of_eq htodos ⟨j, hj2⟩]
        exact List.get_map (fun x => if x.id == i then applyTodoPatch t s d x else x)
      rw [hy]
      by_cases hxi : (db.todos.get ⟨j, hj⟩).id = i
      · have hb : ((db.todos.get ⟨j, hj⟩).id == i) = true := by simpa using hxi
        simp only [hb, if_true]
        refine ⟨applyTodoPatch_id t s d _, applyTodoPatch_date t s d _,
          fun hne => absurd hxi hne, ?_, ?_, ?_⟩
        · rintro rfl; exact applyTodoPatch_title_none s d _
        · rintro rfl; exact applyTodoPatch_status_none t d _
        · rintro rfl; exact applyTodoPatch_descr_none t s _
      · have hbf : ((db.todos.get ⟨j, hj⟩).id == i) = false := by simpa using hxi
        simp only [hbf, Bool.false_eq_true, if_false]
        refine ⟨?_, ?_, ?_, ?_, ?_, ?_⟩ <;> intros <;> trivial

/-- Witness for C6: an empty payload at id 1 is rejected with nothing
written, and a title-only update of the one-row store answers the patched
row, whose id is 1. -/
theorem C6_witness :
    (updateTodoById dbOneTodo 1 none none none).result = HResult.fail ApiError.noUpdateData
    ∧ (updateTodoById dbOneTodo 1 none none none).db = dbOneTodo
    ∧ (⟨1, "Nuevo", "To Do", none, 5⟩ : Todo).id = 1 :=
  ⟨((C6_updateTodo_frame dbOneTodo 1 none none none).1 ⟨rfl, rfl, rfl⟩).1,
   ((C6_updateTodo_frame dbOneTodo 1 none none none).1 ⟨rfl, rfl, rfl⟩).2.1,
   ((C6_updateTodo_frame dbOneTodo 1 (some "Nuevo") none none).2 200
      ⟨1, "Nuevo", "To Do", none, 5⟩ (by decide)).1⟩

/-- A createTodo call with a non-empty title and no status succeeds: it
answers 201 with the row built from the defaults and appends it. -/
theorem createTodo_ok (db : DB) (t : String) (d : Option String) (ht : t ≠ "") :
    (createTodo db (some t) none d).result
      = HResult.ok 201 ⟨db.nextTodoId, jsTrim t, "To Do",
          if jsTruthy d then some (jsTrim (d.getD "")) else none, db.now⟩
    ∧ (createTodo db (some t) none d).db.todos
      = db.todos ++ [⟨db.nextTodoId, jsTrim t, "To Do",
          if jsTruthy d then some (jsTrim (d.getD "")) else none, db.now⟩] := by
  have hex : ∀ v : Value,
      execOk "INSERT INTO todo (title, status, description) VALUES ($1, $2, $3) RETURNING *"
        [Value.str (jsTrim t), Value.str "To Do", v] = true := fun v => rfl
  exact ⟨by simp [createTodo, jsTruthy, ht, hex], by simp [createTodo, jsTruthy, ht, hex]⟩

/-- Either createTodo rejects the request and leaves the store unchanged, or
a truthy status was valid and the new row, built from the trimmed title, the
resolved status and the trimmed-or-null description, is appended. -/
theorem createTodo_shape (db : DB) (t s d : Option String) :
    (createTodo db t s d).db = db
    ∨ ((jsTruthy s = true → s.getD "" ∈ validStatuses)
       ∧ (createTodo db t s d).db.todos
           = db.todos ++ [⟨db.nextTodoId, jsTrim (t.getD ""),
               if jsTruthy s then s.getD "" else "To Do",
               if jsTruthy d then some (jsTrim (d.getD "")) else none, db.now⟩]) := by
  have hex : ∀ a b c : Value,
      execOk "INSERT INTO todo (title, status, description) VALUES ($1, $2, $3) RETURNING *"
        [a, b, c] = true := fun a b c => rfl
  by_cases ht : jsTruthy t
  · by_cases hjs : jsTruthy s
    · by_cases hmem : s.getD "" ∈ validStatuses
      · right
        refine ⟨fun _ => hmem, ?_⟩
        simp [createTodo, ht, hjs, hmem, hex]
      · left
        simp [createTodo, ht, hjs, hmem]
    · right
      refine ⟨fun hcon => absurd hcon (by simp [hjs]), ?_⟩
      simp [createTodo, ht, hjs, hex]
  · left
    simp [createTodo, ht]

/-- C7: the lookup handlers answer NotFound exactly when no row with the
requested id exists at call time, and deleting an existing todo id makes a
subsequent lookup of that id answer NotFound. -/
theorem C7_notFound_iff_absent (db : DB) (i : Int) :
    ((getUserById db i).result = HResult.fail ApiError.notFound ↔ ∀ u ∈ db.users, u.id ≠ i)
    ∧ ((getTodoById db i).result = HResult.fail ApiError.notFound ↔ ∀ x ∈ db.todos, x.id ≠ i)
    ∧ (∀ code x, (deleteTodoById db i).result = HResult.ok code x →
        (getTodoById (deleteTodoById db i).db i).result = HResult.fail ApiError.notFound) := by
  refine ⟨⟨?_, ?_⟩, ⟨?_, ?_⟩, ?_⟩
  · intro hfail u hu hcon
    rcases hf : db.users.find? (fun v => v.id == i) with _ | v
    · rw [List.find?_eq_none] at hf
      exact hf u hu (by simpa using hcon)
    · unfold getUserById at hfail
      rw [hf] at hfail
      cases hfail
  · intro hall
    have h : db.users.find? (fun v => v.id == i) = none := by
      rw [List.find?_eq_none]
      intro x hx
      simpa using hall x hx
    unfold getUserById
    rw [h]
  · intro hfail x hx hcon
    rcases hf : db.todos.find? (fun v => v.id == i) with _ | v
    · rw [List.find?_eq_none] at hf
      exact hf x hx (by simpa using hcon)
    · unfold getTodoById at hfail
      rw [hf] at hfail
      cases hfail
  · intro hall
    have h : db.todos.find? (fun v => v.id == i) = none := by
      rw [List.find?_eq_none]
      intro x hx
      simpa using hall x hx
    unfold getTodoById
    rw [h]
  · intro code x h
    have hnone : (db.todos.filter (fun v => !(v.id == i))).find? (fun y => y.id == i) = none := by
      rw [List.find?_eq_none]
      intro y hy hcon
      have h2 := (List.mem_filter.mp hy).2
      rw [hcon] at h2
      simp at h2
    unfold deleteTodoById at h ⊢
    rcases hf : db.todos.filter (fun v => v.id == i) with _ | ⟨y, ys⟩
    · rw [hf] at h
      cases h
    · rw [hf] at h ⊢
      simp [getTodoById, hnone]

/-- Witness for C7 on the one-todo store: id 1 is present so the lookup does
not answer NotFound, id 2 is absent so it does, and the delete-then-lookup
sequence at id 1 answers NotFound. -/
theorem C7_witness :
    (¬ ∀ x ∈ dbOneTodo.todos, x.id ≠ (1 : Int))
    ∧ (getTodoById dbOneTodo 2).result = HResult.fail ApiError.notFound
    ∧ (getTodoById (deleteTodoById dbOneTodo 1).db 1).result = HResult.fail ApiError.notFound :=
  ⟨fun hall => absurd ((C7_notFound_iff_absent dbOneTodo 1).2.1.mpr hall) (by decide),
   (C7_notFound_iff_absent dbOneTodo 2).2.1.mpr (by decide),
   (C7_notFound_iff_absent dbOneTodo 1).2.2 200 ⟨1, "Tarea", "To Do", none, 5⟩ (by decide)⟩

/-- The todo-status invariant: every row of the todo table has one of the
three enumerated status values. -/
def TodoInv (db : DB) : Prop := ∀ x ∈ db.todos, x.status ∈ validStatuses

/-- C8: every handler preserves the todo-status invariant (the user handlers
never touch the todo table at all); a creation without a truthy status yields
a row with status To Do; and an explicit update drives any existing row to
any chosen valid status, whatever its previous one. -/
theorem C8_invariant_preserved (db : DB) (hinv : TodoInv db) :
    (∀ t s d, TodoInv (createTodo db t s d).db)
    ∧ (∀ i t s d, TodoInv (updateTodoById db i t s d).db)
    ∧ (∀ i, TodoInv (deleteTodoById db i).db)
    ∧ (∀ i, (getTodoById db i).db = db)
    ∧ (∀ n e p, (createUser db n e p).db.todos = db.todos)
    ∧ (∀ i n e p, (updateUserById db i n e p).db.todos = db.todos)
    ∧ (∀ i, (deleteUserById db i).db.todos = db.todos)
    ∧ (∀ i, (getUserById db i).db = db)
    ∧ (∀ t d code row, (createTodo db t none d).result = HResult.ok code row →
        row.status = "To Do")
    ∧ (∀ i s2, s2 ∈ validStatuses → (∃ x ∈ db.todos, x.id = i) →
        ∃ row, (updateTodoById db i none (some s2) none).result = HResult.ok 200 row
          ∧ row.status = s2
          ∧ ∀ z ∈ (updateTodoById db i none (some s2) none).db.todos,
              z.id = i → z.status = s2) := by
  refine ⟨?_, ?_, ?_, ?_, ?_, ?_, ?_, ?_, ?_, ?_⟩
  · intro t s d
    rcases createTodo_shape db t s d with h | ⟨hval, htodos⟩
    · rw [h]; exact hinv
    · intro x hx
      rw [htodos] at hx
      rcases List.mem_append.mp hx with hx1 | hx2
      · exact hinv x hx1
      · rw [List.mem_singleton] at hx2
        subst hx2
        by_cases hjs : jsTruthy s
        · simpa [hjs] using hval hjs
        · simp [hjs, validStatuses]
  · intro i t s d
    rcases updateTodoById_shape db i t s d with ⟨h, _⟩ | ⟨hval, htodos, _⟩
    · rw [h]; exact hinv
    · intro x hx
      rw [htodos] at hx
      rcases List.mem_map.mp hx with ⟨y, hy, rfl⟩
      by_cases hyi : (y.id == i) = true
      · show (if (y.id == i) = true then applyTodoPatch t s d y else y).status ∈ validStatuses
        rw [if_pos hyi]
        rcases s with _ | sv
        · rw [applyTodoPatch_status_none]; exact hinv y hy
        · rw [applyTodoPatch_status_some]; exact hval sv rfl
      · show (if (y.id == i) = true then applyTodoPatch t s d y else y).status ∈ validStatuses
        rw [if_neg hyi]
        exact hinv y hy
  · intro i
    unfold deleteTodoById
    rcases hf : db.todos.filter (fun v => v.id == i) with _ | ⟨y, ys⟩ <;> rw [hf]
    · exact hinv
    · intro x hx
      exact hinv x (List.mem_filter.mp hx).1
  · intro i
    unfold getTodoById
    rcases hf : db.todos.find? (fun v => v.id == i) with _ | v <;> rw [hf]
  · intro n e p
    simp only [createUser]
    split_ifs <;> rfl
  · intro i n e p
    simp only [updateUserById]
    split_ifs <;> rfl
  · intro i
    simp only [deleteUserById]
    split_ifs
    · rfl
    · rcases hf : db.users.filter (fun u => u.id == i) with _ | ⟨u, us⟩ <;> rw [hf] <;> rfl
  · intro i
    unfold getUserById
    rcases hf : db.users.find? (fun v => v.id == i) with _ | v <;> rw [hf]
  · intro t d code row h
    rcases t with _ | tv
    · simp [createTodo, jsTruthy] at h
    · by_cases ht : tv = ""
      · subst ht
        simp [createTodo, jsTruthy] at h
      · have hres := (createTodo_ok db tv d ht).1
        rw [hres] at h
        injection h with h1 h2
        rw [← h2]
  · rintro i s2 hs2 ⟨x, hx, hxi⟩
    have hc' : validStatuses.contains s2 = true := by simpa using hs2
    unfold updateTodoById
    simp only [Option.isNone_none, Option.isNone_some, Bool.and_false, Bool.false_and,
      Bool.true_and, Bool.and_true, Option.isSome_some, Option.isSome_none, Option.getD_some,
      hc', Bool.not_true, Bool.false_eq_true, if_false, if_true, List.nil_append,
      List.cons_append, List.length_cons, List.length_nil, lenBeq1, execOk_dyn_s]
    rcases hf : db.todos.filter (fun v => v.id == i) with _ | ⟨y, ys⟩
    · exfalso
      have hmem : x ∈ db.todos.filter (fun v => v.id == i) :=
        List.mem_filter.mpr ⟨hx, by simpa using hxi⟩
      rw [hf] at hmem
      cases hmem
    · rw [hf]
      refine ⟨applyTodoPatch none (some s2) none y, rfl,
        applyTodoPatch_status_some none none s2 y, ?_⟩
      intro z hz hzi
      rcases List.mem_map.mp hz with ⟨w, hw, rfl⟩
      by_cases hwi : (w.id == i) = true
      · show (if (w.id == i) = true then applyTodoPatch none (some s2) none w else w).status = s2
        rw [if_pos hwi, applyTodoPatch_status_some]
      · exfalso
        have hwi' : (w.id == i) = false := by simpa using hwi
        revert hzi
        show (if (w.id == i) = true then applyTodoPatch none (some s2) none w else w).id = i → False
        rw [hwi']
        simp only [Bool.false_eq_true, if_false]
        intro hzi2
        rw [hzi2] at hwi'
        simp at hwi'

/-- Witness for C8: the invariant holds of the empty store and is preserved
by a concrete creation. -/
theorem C8_witness :
    TodoInv dbEmpty ∧ TodoInv (createTodo dbEmpty (some "Tarea") none none).db := by
  have h : TodoInv dbEmpty := by intro x hx; cases hx
  exact ⟨h, (C8_invariant_preserved dbEmpty h).1 (some "Tarea") none none⟩

/-- C9: creating a todo from a non-empty title on a well-formed store (every
existing id below the next sequence value) answers 201 with a To Do row, and
an immediate lookup of the returned id answers 200 with the very same row. -/
theorem C9_create_get_roundtrip (db : DB) (T : String) (d : Option String)
    (hT : T ≠ "") (hfresh : ∀ x ∈ db.todos, x.id < db.nextTodoId) :
    ∃ row : Todo,
      (createTodo db (some T) none d).result = HResult.ok 201 row
      ∧ row.status = "To Do"
      ∧ row.title = jsTrim T
      ∧ (getTodoById (createTodo db (some T) none d).db row.id).result = HResult.ok 200 row := by
  obtain ⟨hres, htodos⟩ := createTodo_ok db T d hT
  refine ⟨⟨db.nextTodoId, jsTrim T, "To Do",
    if jsTruthy d then some (jsTrim (d.getD "")) else none, db.now⟩, hres, rfl, rfl, ?_⟩
  show (getTodoById (createTodo db (some T) none d).db db.nextTodoId).result
    = HResult.ok 200 ⟨db.nextTodoId, jsTrim T, "To Do",
        if jsTruthy d then some (jsTrim (d.getD "")) else none, db.now⟩
  have hfind : (createTodo db (some T) none d).db.todos.find?
      (fun v => v.id == db.nextTodoId)
      = some ⟨db.nextTodoId, jsTrim T, "To Do",
          if jsTruthy d then some (jsTrim (d.getD "")) else none, db.now⟩ := by
    rw [htodos, List.find?_append]
    have h1 : db.todos.find? (fun v => v.id == db.nextTodoId) = none := by
      rw [List.find?_eq_none]
      intro x hx hcon
      have hlt := hfresh x hx
      rw [show x.id = db.nextTodoId from by simpa using hcon] at hlt
      exact lt_irrefl _ hlt
    rw [h1, Option.none_or]
    exact List.find?_cons_of_pos _ (by simp)
  unfold getTodoById
  rw [hfind]

/-- Witness for C9 at the concrete title T on the empty store. -/
theorem C9_witness :
    ∃ row : Todo,
      (createTodo dbEmpty (some "T") none none).result = HResult.ok 201 row
      ∧ row.status = "To Do"
      ∧ row.title = jsTrim "T"
      ∧ (getTodoById (createTodo dbEmpty (some "T") none none).db row.id).result
          = HResult.ok 200 row :=
  C9_create_get_roundtrip dbEmpty "T" none (by decide) (by intro x hx; cases hx)

/-- Spec-side reading of the claim family, written from the claim text: the
leading characters of the segment form a nonempty run of decimal digits and
the remaining characters are nonempty and all non-digits. -/
def leadingIntThenNonDigits (s : String) : Bool :=
  s.toList.takeWhile Char.isDigit ≠ [] &&
  s.toList.dropWhile Char.isDigit ≠ [] &&
  (s.toList.dropWhile Char.isDigit).all (fun c => !c.isDigit)

/-- The hexadecimal prefix rule of parseInt: a segment beginning with 0x or
0X is read in radix 16 rather than truncated at the x. -/
def isHexPrefixed (s : String) : Bool :=
  match s.toList with
  | '0' :: 'x' :: _ => true
  | '0' :: 'X' :: _ => true
  | _ => false

/-- Numeric value of the leading run of decimal digits of a segment. -/
def leadingIntVal (s : String) : Int :=
  (((s.toList.takeWhile Char.isDigit).foldl
      (fun a c => a * 10 + (c.toNat - '0'.toNat)) 0 : Nat) : Int)

/-- A decimal digit is accepted by the radix-10 parser with its value. -/
theorem digitValue_ten_digit (c : Char) (h : c.isDigit = true) :
    digitValue 10 c = some (c.toNat - '0'.toNat) := by
  simp only [Char.isDigit, Bool.and_eq_true, decide_eq_true_eq] at h
  have hle : '0' ≤ c ∧ c ≤ '9' := ⟨Char.le_def.mpr h.1, Char.le_def.mpr h.2⟩
  have h2 : c.val.toNat ≤ 57 := h.2
  have h3 : c.toNat = c.val.toNat := rfl
  have hlt : c.toNat - 48 < 10 := by omega
  simp [digitValue, hle, hlt]

/-- A non-digit character is rejected by the radix-10 parser: characters in
the letter ranges get values of at least ten, everything else none. -/
theorem digitValue_ten_none (c : Char) (h : c.isDigit = false) :
    digitValue 10 c = none := by
  simp only [Char.isDigit, Bool.and_eq_false_iff, decide_eq_false_iff_not] at h
  have hnd : ¬ ('0' ≤ c ∧ c ≤ '9') := by
    rintro ⟨h1, h2⟩
    rcases h with h | h
    · exact h (Char.le_def.mp h1)
    · exact h (Char.le_def.mp h2)
  unfold digitValue
  rw [if_neg hnd]
  by_cases ha : 'a' ≤ c ∧ c ≤ 'z'
  · rw [if_pos ha]
    have : ¬ (c.toNat - 'a'.toNat + 10 < 10) := by omega
    simp [this]
  · rw [if_neg ha]
    by_cases hA : 'A' ≤ c ∧ c ≤ 'Z'
    · rw [if_pos hA]
      have : ¬ (c.toNat - 'A'.toNat + 10 < 10) := by omega
      simp [this]
    · rw [if_neg hA]

/-- Reading a run of digits followed by a non-digit head accumulates exactly
the decimal value of the run on top of the accumulator. -/
theorem parseDigits_eval (rest : List Char)
    (hrest : ∀ c ∈ rest.head?, c.isDigit = false) :
    ∀ (ds : List Char), (∀ c ∈ ds, c.isDigit = true) → ∀ a : Nat,
      parseDigits 10 (ds ++ rest) (some a)
        = some (ds.foldl (fun acc c => acc * 10 + (c.toNat - '0'.toNat)) a) := by
  intro ds
  induction ds with
  | nil =>
    intro _ a
    cases rest with
    | nil => simp [parseDigits]
    | cons r rs =>
      have hr : r.isDigit = false := hrest r (by simp)
      simp [parseDigits, digitValue_ten_none r hr]
  | cons c ds ih =>
    intro hds a
    have hc : c.isDigit = true := hds c (by simp)
    rw [List.cons_append]
    rw [show parseDigits 10 (c :: (ds ++ rest)) (some a)
        = parseDigits 10 (ds ++ rest) (some (a * 10 + (c.toNat - '0'.toNat))) from by
      simp [parseDigits, digitValue_ten_digit c hc]]
    rw [ih (fun x hx => hds x (List.mem_cons_of_mem c hx))]
    simp

/-- On a segment whose first character is a digit and which does not carry
the hexadecimal prefix, parseInt skips no whitespace, reads no sign, stays in
radix 10 and returns the longest decimal prefix of the segment. -/
theorem parseIntJS_digit_head (s : String) (c : Char) (cs : List Char)
    (hcs : s.toList = c :: cs)
    (hd : c.isDigit = true)
    (hhx : ∀ rest, c :: cs ≠ '0' :: 'x' :: rest)
    (hhX : ∀ rest, c :: cs ≠ '0' :: 'X' :: rest) :
    parseIntJS s = (parseDigits 10 (c :: cs) none).map (fun n => (n : Int)) := by
  have hw : c.isWhitespace = false := by
    cases hw2 : c.isWhitespace
    · rfl
    · exfalso
      simp only [Char.isWhitespace, Bool.or_eq_true, decide_eq_true_eq] at hw2
      rcases hw2 with ((rfl | rfl) | rfl) | rfl <;> exact absurd hd (by decide)
  have h1 : c ≠ '-' := fun hc => absurd (hc ▸ hd) (by decide)
  have h2 : c ≠ '+' := fun hc => absurd (hc ▸ hd) (by decide)
  unfold parseIntJS
  rw [hcs]
  simp only [List.dropWhile_cons, hw, Bool.false_eq_true, if_false]
  have hsign : (match c :: cs with
      | '-' :: rest => (true, rest)
      | '+' :: rest => (false, rest)
      | x => ((false, c :: cs) : Bool × List Char)) = ((false, c :: cs) : Bool × List Char) := by
    split
    · rename_i rest heq
      injection heq with hc
      exact absurd hc h1
    · rename_i rest heq
      injection heq with hc
      exact absurd hc h2
    · rfl
  rw [hsign]
  have hhexm : (match c :: cs with
      | '0' :: 'x' :: rest => (16, rest)
      | '0' :: 'X' :: rest => (16, rest)
      | x => ((10, c :: cs) : Nat × List Char)) = ((10, c :: cs) : Nat × List Char) := by
    split
    · rename_i rest heq
      exact absurd heq (hhx rest)
    · rename_i rest heq
      exact absurd heq (hhX rest)
    · rfl
  rw [show ((false, c :: cs) : Bool × List Char).2 = c :: cs from rfl] at *
  rw [hhexm]
  rcases hpd : parseDigits 10 (c :: cs) none with _ | n <;> simp [hpd]

/-- On every segment of the claim family without the hexadecimal prefix,
parseInt yields exactly the value of the leading digit run. -/
theorem parseIntJS_of_family (s : String)
    (hfam : leadingIntThenNonDigits s = true)
    (hhex : isHexPrefixed s = false) :
    parseIntJS s = some (leadingIntVal s) := by
  simp only [leadingIntThenNonDigits, Bool.and_eq_true, ne_eq, decide_eq_true_eq,
    List.all_eq_true] at hfam
  obtain ⟨⟨htake, hdrop⟩, hall⟩ := hfam
  rcases hcs : s.toList with _ | ⟨c, cs⟩
  · rw [hcs] at htake
    simp at htake
  · rw [hcs] at htake hdrop hall
    have hd : c.isDigit = true := by
      by_contra hnd
      rw [List.takeWhile_cons] at htake
      simp only [Bool.not_eq_true] at hnd
      rw [hnd] at htake
      simp at htake
    have hhx : ∀ rest, c :: cs ≠ '0' :: 'x' :: rest := by
      intro rest heq
      unfold isHexPrefixed at hhex
      rw [hcs, heq] at hhex
      cases hhex
    have hhX : ∀ rest, c :: cs ≠ '0' :: 'X' :: rest := by
      intro rest heq
      unfold isHexPrefixed at hhex
      rw [hcs, heq] at hhex
      cases hhex
    rw [parseIntJS_digit_head s c cs hcs hd hhx hhX]
    have hdw : (c :: cs).dropWhile Char.isDigit = cs.dropWhile Char.isDigit := by
      rw [List.dropWhile_cons, if_pos hd]
    have hrest : ∀ x ∈ (cs.dropWhile Char.isDigit).head?, x.isDigit = false := by
      intro x hx
      have hmem := List.mem_of_mem_head? hx
      rw [← hdw] at hmem
      simpa using hall x hmem
    have hdigits : ∀ x ∈ cs.takeWhile Char.isDigit, x.isDigit = true :=
      fun x hx => List.mem_takeWhile_imp hx
    have hstep1 : parseDigits 10 (c :: cs) none
        = parseDigits 10 cs (some (c.toNat - '0'.toNat)) := by
      simp [parseDigits, digitValue_ten_digit c hd]
    have hstep2 : parseDigits 10 cs (some (c.toNat - '0'.toNat))
        = parseDigits 10 (cs.takeWhile Char.isDigit ++ cs.dropWhile Char.isDigit)
            (some (c.toNat - '0'.toNat)) := by
      rw [List.takeWhile_append_dropWhile]
    rw [hstep1, hstep2,
      parseDigits_eval (cs.dropWhile Char.isDigit) hrest (cs.takeWhile Char.isDigit)
        hdigits (c.toNat - '0'.toNat)]
    have hcs2 : s.data = c :: cs := hcs
    simp [leadingIntVal, hcs2, List.takeWhile_cons, hd]

/-- C10 counterexample: the segment 0xGGG belongs to the claim family (its
leading character 0 is a base-10 integer and xGGG are non-digits), yet the
endpoints answer InvalidId on it with no query issued: parseInt treats the 0x
prefix as hexadecimal and finds no hex digits after it, yielding NaN. -/
theorem C10_counterexample_hex_segment :
    leadingIntThenNonDigits "0xGGG" = true
    ∧ parseIntJS "0xGGG" = none
    ∧ (getTodo dbEmpty "0xGGG").result = HResult.fail ApiError.invalidId
    ∧ (getTodo dbEmpty "0xGGG").queries = []
    ∧ (getUser dbEmpty "0xGGG").result = HResult.fail ApiError.invalidId
    ∧ (getUser dbEmpty "0xGGG").queries = [] := by decide

/-- C10 (amended): for every path segment whose leading characters form a
base-10 integer followed by non-digit characters and which does not begin
with the hexadecimal prefix 0x or 0X, the GET by id endpoints do not answer
InvalidId: parseInt truncates the segment to its leading integer and the
handler queries the store for exactly that id. -/
theorem C10_amended_leading_integer_segment_queries_db
    (db : DB) (s : String)
    (hfam : leadingIntThenNonDigits s = true)
    (hhex : isHexPrefixed s = false) :
    parseIntJS s = some (leadingIntVal s)
    ∧ (getTodo db s).result ≠ HResult.fail ApiError.invalidId
    ∧ (getTodo db s).queries
        = [⟨"SELECT * FROM todo WHERE id = $1", [Value.int (leadingIntVal s)]⟩]
    ∧ (getUser db s).result ≠ HResult.fail ApiError.invalidId
    ∧ (getUser db s).queries
        = [⟨"SELECT * FROM users WHERE id = $1", [Value.int (leadingIntVal s)]⟩] := by
  have hp := parseIntJS_of_family s hfam hhex
  refine ⟨hp, ?_, ?_, ?_, ?_⟩ <;>
    simp only [getTodo, getUser, hp, getTodoById, getUserById] <;>
    rcases h : db.todos.find? (fun t => t.id == leadingIntVal s) with _ | t <;>
    rcases h2 : db.users.find? (fun u => u.id == leadingIntVal s) with _ | u <;>
    simp [h, h2]

/-- Witness for the amended C10 at the concrete segment 12abc on the empty
store: it is in the family, is not hex prefixed, parses to its leading
integer 12, and the todo lookup queries exactly id 12. -/
theorem C10_amended_witness :
    leadingIntThenNonDigits "12abc" = true
    ∧ isHexPrefixed "12abc" = false
    ∧ parseIntJS "12abc" = some (leadingIntVal "12abc")
    ∧ (getTodo dbEmpty "12abc").queries
        = [⟨"SELECT * FROM todo WHERE id = $1", [Value.int (leadingIntVal "12abc")]⟩]
    ∧ (getTodo dbEmpty "12abc").result ≠ HResult.fail ApiError.invalidId :=
  ⟨by decide, by decide,
   (C10_amended_leading_integer_segment_queries_db dbEmpty "12abc" (by decide) (by decide)).1,
   (C10_amended_leading_integer_segment_queries_db dbEmpty "12abc" (by decide) (by decide)).2.2.1,
   (C10_amended_leading_integer_segment_queries_db dbEmpty "12abc" (by decide) (by decide)).2.1⟩

end BackDocker
